import Mathlib

/-!
Verification of the `resampler` streaming core (src/resampler/resampler.c).

The development shallowly embeds the parts of the program the claims are
about: the command-line factor validation in `_set_options`, the Q.15
coefficient conversion loop, the sample-buffer allocator `_alloc_sample_buf`,
the fixed-point DC-blocking filter `dc_blocker_apply`, and the streaming
read/filter/write loop `process_fir`.

Machine integers are modelled as mathematical integers wrapped explicitly:
`wrap32` (resp. `wrap16`) reduces a value into the two's-complement range of
`int32_t` (resp. `int16_t`), which is what the compiled C code computes on
the target platforms for narrowing conversions and overflowing arithmetic.
C `double` values that appear in the program (filter taps, the pole
expression) are modelled as exact rationals given by a numerator and a
positive denominator (`fp_val`): every finite binary64 value is such a
rational, and every concrete constant the claims mention is exactly
representable in binary64, so the rational computation agrees bit-for-bit
with the double computation.
-/

/-- Q_15_SHIFT from filter/filter.h: the Q.15 fixed-point shift, 15. -/
def Q_15_SHIFT : Nat := 15

/-- Reduce an integer into the two's-complement `int32_t` range
[-2^31, 2^31), as the compiled code does on overflowing 32-bit arithmetic. -/
def wrap32 (n : Int) : Int := (n + 2 ^ 31) % 2 ^ 32 - 2 ^ 31

/-- Reduce an integer into the two's-complement `int16_t` range
[-2^15, 2^15), as a C narrowing conversion to `int16_t` does on the
target platforms. -/
def wrap16 (n : Int) : Int := (n + 2 ^ 15) % 2 ^ 16 - 2 ^ 15

/-- An exact rational `num / den`, used to model a finite C `double` value
(every finite binary64 value is such a rational with a power-of-two
denominator).  `den` is meant to be positive; theorems that need this take
it as a hypothesis. -/
structure fp_val where
  num : Int
  den : Nat
deriving DecidableEq

/-- Truncation toward zero of `t * 2^15`, the arithmetic a C cast of the
double product `t * (1 << Q_15_SHIFT)` to an integer type performs
(`Int.tdiv` is C-style division: it truncates toward zero). -/
def q15_trunc (t : fp_val) : Int := Int.tdiv (t.num * 2 ^ Q_15_SHIFT) t.den

/-- Embedding of one step of the coefficient conversion loop in
`_set_options` (resampler.c lines 147-150):
`filter_coeffs[i] = (int16_t)(filter_coeffs_f[i] * q15)` with
`q15 = 1 << Q_15_SHIFT`.  The cast truncates the product toward zero and
narrows it to 16 bits; the compiled conversion goes through a wider integer
and keeps the low 16 bits, i.e. wraps. -/
def q15_coeff (t : fp_val) : Int := wrap16 (q15_trunc t)

/-- Embedding of the whole conversion loop: each floating-point tap is
converted exactly once, in order. -/
def convert_coeffs (ts : List fp_val) : List Int := ts.map q15_coeff

/-- Conversion following the spec's words instead of the source:
`round(t * 2^15)` (C `round`: to nearest, ties away from zero).  Declared
for comparison with `q15_coeff`. -/
def q15_round (t : fp_val) : Int :=
  if 0 ≤ t.num then (2 * t.num * 2 ^ Q_15_SHIFT + t.den) / (2 * t.den)
  else -((2 * (-t.num) * 2 ^ Q_15_SHIFT + t.den) / (2 * t.den))

/-- The fatal configuration errors `_set_options` can report before the
streaming loop starts. -/
inductive config_error where
  | missing_src_dest
  | bad_decimation
  | bad_interpolation
  | bad_filter_file
deriving DecidableEq

/-- Embedding of the factor validation in `_set_options` (resampler.c lines
117-125).  Both guards in the source test `decimate`: the second guard's
message speaks of the interpolation factor, but its condition is
`0 == decimate` again. -/
def check_factors (interpolate decimate : Nat) : Option config_error :=
  if decimate = 0 then some config_error.bad_decimation
  else if decimate = 0 then some config_error.bad_interpolation
  else none

/-- Validation following the spec's words instead of the source: a zero
decimation factor and a zero interpolation factor are each detected as a
configuration error before the loop starts.  Declared for comparison with
`check_factors`. -/
def check_factors_spec (interpolate decimate : Nat) : Option config_error :=
  if decimate = 0 then some config_error.bad_decimation
  else if interpolate = 0 then some config_error.bad_interpolation
  else none

/-- Modelled from the spec: the sample-encoding tag of a buffer
distinguishes the single-channel (scalar) fixed-point format from the
complex-pair format.  The defining header (filter/complex.h) is not part of
this file; the source names only `COMPLEX_INT_16`, the complex 16-bit
fixed-point tag, and the scalar 16-bit tag is the other alternative the
spec's data model describes. -/
inductive sample_type_t where
  | REAL_INT_16
  | COMPLEX_INT_16
deriving DecidableEq

/-- The metadata fields of `struct sample_buf` (filter/sample_buf.h) that
`_alloc_sample_buf` initializes and the claims mention. -/
structure sample_buf where
  refcount : Nat
  sample_type : sample_type_t
  sample_buf_bytes : Nat
  nr_samples : Nat
deriving DecidableEq

/-- NR_SAMPLES from resampler.c line 171: the fixed block size, in samples,
shared by the whole pipeline. -/
def NR_SAMPLES : Nat := 1024

/-- Embedding of `_alloc_sample_buf` (resampler.c lines 173-197), success
path: the buffer metadata exactly as the allocator initializes it.  The
data region is `NR_SAMPLES * sizeof(int16_t)` bytes.  On allocation failure
the function returns an error and constructs no buffer; the claims concern
returned buffers only. -/
def _alloc_sample_buf : sample_buf :=
  { refcount := 0
    sample_type := sample_type_t.COMPLEX_INT_16
    sample_buf_bytes := NR_SAMPLES * 2
    nr_samples := 0 }

/-- The state of `struct dc_blocker` (resampler.c lines 202-227): all five
fields are `int32_t`. -/
structure dc_blocker where
  p : Int
  x_n_1 : Int
  y_n_1 : Int
  f : Int
  acc : Int
deriving DecidableEq

/-- Embedding of the body of the loop in `dc_blocker_apply` (resampler.c
lines 240-246) for one sample: the five assignments in source order, with
every `int32_t` operation wrapped to 32 bits and the final store to the
`int16_t` sample narrowed to 16 bits.  Returns the updated state and the
value stored back into the block. -/
def dc_step (b : dc_blocker) (s : Int) : dc_blocker × Int :=
  let acc1 := wrap32 (b.acc - b.x_n_1)
  let x1 := wrap32 (s * 2 ^ Q_15_SHIFT)
  let acc2 := wrap32 (acc1 + wrap32 (x1 - wrap32 (b.p * b.y_n_1)))
  let y1 := acc2 / 2 ^ Q_15_SHIFT
  ({ b with acc := acc2, x_n_1 := x1, y_n_1 := y1 }, wrap16 y1)

/-- Embedding of `dc_blocker_apply` (resampler.c lines 229-249): the filter
runs over the block in order, overwriting each sample with the filtered
value; the input at index i is read before it is overwritten, and no later
input is touched before its own iteration.  Returns the final state and the
block contents after the in-place update. -/
def dc_blocker_apply (b : dc_blocker) : List Int → dc_blocker × List Int
  | [] => (b, [])
  | s :: rest =>
    let p1 := dc_step b s
    let pr := dc_blocker_apply p1.1 rest
    (pr.1, p1.2 :: pr.2)

/-- The exact binary64 value of the C expression `1.0 - 0.9999`: `0.9999`
rounds to `9006298534815518 / 2^53`, and the subtraction from `1.0` is
exact, giving `900719925474 / 2^53`. -/
def pole_fp : fp_val := { num := 900719925474, den := 2 ^ 53 }

/-- Embedding of resampler.c line 258,
`blck.p = (int16_t)((1.0 - 0.9999) * (double)(1 << Q_15_SHIFT))`: the
double product is exact, and the cast truncates it toward zero into the
`int16_t` range. -/
def pole_q15 : Int := q15_coeff pole_fp

/-- The DC blocker state as `process_fir` creates it (resampler.c lines
256-258): `memset` to zero, then the pole coefficient is set. -/
def dc_blocker_init : dc_blocker :=
  { p := pole_q15, x_n_1 := 0, y_n_1 := 0, f := 0, acc := 0 }

/-- The DC Blocker state the spec describes: pole coefficient, previous
input, previous output and accumulator (the reserved noise-shaping value
does not participate in the recurrence). -/
structure dc_spec_state where
  pole : Int
  x_prev : Int
  y_prev : Int
  acc : Int
deriving DecidableEq

/-- The per-sample recurrence following the spec's words, over unbounded
integers:
`acc ← acc - x_prev`; `x_prev ← input << 15`;
`acc ← acc + x_prev - pole * y_prev`; `y_prev ← acc >> 15`;
`output ← y_prev` (an arithmetic right shift by 15 is floor division
by 2^15, which is `Int` division).  Declared for comparison with
`dc_step`. -/
def dc_spec_step (st : dc_spec_state) (input : Int) : dc_spec_state × Int :=
  let acc1 := st.acc - st.x_prev
  let x1 := input * 2 ^ 15
  let acc2 := acc1 + x1 - st.pole * st.y_prev
  let y1 := acc2 / 2 ^ 15
  ({ st with x_prev := x1, y_prev := y1, acc := acc2 }, y1)

/-- The spec recurrence threaded through a block in order. -/
def dc_spec_apply (st : dc_spec_state) : List Int → dc_spec_state × List Int
  | [] => (st, [])
  | s :: rest =>
    let p1 := dc_spec_step st s
    let pr := dc_spec_apply p1.1 rest
    (pr.1, p1.2 :: pr.2)

/-- The zero-initialized spec state with a given pole. -/
def dc_spec_init (pole : Int) : dc_spec_state :=
  { pole := pole, x_prev := 0, y_prev := 0, acc := 0 }

/-- Membership of the `int32_t` range. -/
def i32_ok (v : Int) : Bool := decide (-(2 ^ 31) ≤ v) && decide (v < 2 ^ 31)

/-- Membership of the `int16_t` range. -/
def i16_ok (v : Int) : Bool := decide (-(2 ^ 15) ≤ v) && decide (v < 2 ^ 15)

/-- Decides that running the spec recurrence from `st` over `inputs` never
leaves the machine ranges: every input is an `int16_t`, every value the
recurrence assigns to the 32-bit registers fits `int32_t`, and every output
fits `int16_t`. -/
def dc_no_overflow (st : dc_spec_state) : List Int → Bool
  | [] => true
  | s :: rest =>
    i16_ok s &&
    i32_ok (st.acc - st.x_prev) &&
    i32_ok (st.pole * st.y_prev) &&
    i32_ok (st.acc - st.x_prev + s * 2 ^ 15 - st.pole * st.y_prev) &&
    i16_ok ((st.acc - st.x_prev + s * 2 ^ 15 - st.pole * st.y_prev) / 2 ^ 15) &&
    dc_no_overflow (dc_spec_step st s).1 rest

/-- Correspondence between a code-side `dc_blocker` state and a spec-side
state: the four participating registers agree. -/
def dc_rel (b : dc_blocker) (st : dc_spec_state) : Prop :=
  b.p = st.pole ∧ b.x_n_1 = st.x_prev ∧ b.y_n_1 = st.y_prev ∧ b.acc = st.acc

/-- The observable operations one iteration of the `process_fir` loop
(resampler.c lines 260-307) can perform, in order: allocate a buffer, read
the input FIFO, push the buffer into the resampler, run the polyphase
filter, run the DC blocker, write the output FIFO. -/
inductive LoopAction where
  | alloc_buf
  | read_fifo
  | push_buf
  | fir_process
  | dc_block
  | write_fifo
deriving DecidableEq

/-- How a run of the `process_fir` loop ends.  `success` is the `A_OK`
return after `app_running()` turns false; `read_error` and `write_error`
are the fatal FIFO failures (`A_E_INVAL`); `bug_odd_read` is the
`TSL_BUG_ON((1 & op_ret) != 0)` halt on a byte count that is not a
multiple of the sample width; `bug_no_new_samples` is the
`TSL_BUG_ON(0 == new_samples)` halt; `out_of_fuel` marks an exhausted
environment trace and corresponds to no program behavior. -/
inductive Outcome where
  | success
  | read_error
  | write_error
  | bug_odd_read
  | bug_no_new_samples
  | out_of_fuel
deriving DecidableEq

/-- The environment one loop iteration observes: what
`polyphase_fir_full` reports, what `read` returns (bytes, or 0 / negative
for the error paths), how many samples `polyphase_fir_process` produces,
what `write` returns, and what `app_running()` reports at the bottom of
the iteration. -/
structure IterEnv where
  full : Bool
  read_ret : Int
  new_samples : Nat
  write_ret : Int
  keep_running : Bool
deriving DecidableEq

/-- The operations of the drain half of an iteration: filter, optional DC
block, write. -/
def drain_actions (dcb : Bool) : List LoopAction :=
  LoopAction.fir_process ::
    (if dcb then [LoopAction.dc_block, LoopAction.write_fifo] else [LoopAction.write_fifo])

/-- The drain half of an iteration (resampler.c lines 288-306), after the
actions `pre` already performed by the fill half: run the filter (halting
on zero produced samples), apply the DC blocker if enabled, write, and
fail on a negative write return.  Returns the actions performed and
`some o` if the loop exits abnormally with outcome `o`. -/
def loop_drain (dcb : Bool) (e : IterEnv) (pre : List LoopAction) :
    List LoopAction × Option Outcome :=
  if e.new_samples = 0 then (pre ++ [LoopAction.fir_process], some Outcome.bug_no_new_samples)
  else if e.write_ret < 0 then (pre ++ drain_actions dcb, some Outcome.write_error)
  else (pre ++ drain_actions dcb, none)

/-- One iteration of the `process_fir` loop (resampler.c lines 260-306):
when the resampler is not full, allocate a buffer, read (failing on a
non-positive return, halting on an odd byte count), push the buffer; then
drain. -/
def loop_iter (dcb : Bool) (e : IterEnv) : List LoopAction × Option Outcome :=
  if e.full then loop_drain dcb e []
  else if e.read_ret ≤ 0 then
    ([LoopAction.alloc_buf, LoopAction.read_fifo], some Outcome.read_error)
  else if e.read_ret % 2 ≠ 0 then
    ([LoopAction.alloc_buf, LoopAction.read_fifo], some Outcome.bug_odd_read)
  else loop_drain dcb e [LoopAction.alloc_buf, LoopAction.read_fifo, LoopAction.push_buf]

/-- The `do { ... } while (app_running());` loop of `process_fir`
(resampler.c lines 260-307) over a trace of per-iteration environments:
the body always runs, an abnormal exit inside the body ends the run with
that outcome, and only after a completed iteration is the keep-running
signal consulted; when it is false the loop returns success at the
iteration boundary. -/
def process_fir_run (dcb : Bool) : List IterEnv → List LoopAction × Outcome
  | [] => ([], Outcome.out_of_fuel)
  | e :: rest =>
    let st := loop_iter dcb e
    match st.2 with
    | some o => (st.1, o)
    | none =>
      if e.keep_running then
        let next := process_fir_run dcb rest
        (st.1 ++ next.1, next.2)
      else (st.1, Outcome.success)

/-- The actions of `n` consecutive drain-only iterations. -/
def iters_actions (dcb : Bool) : Nat → List LoopAction
  | 0 => []
  | n + 1 => drain_actions dcb ++ iters_actions dcb n

/-- A value already in the `int16_t` range is unchanged by the narrowing. -/
theorem wrap16_eq_self (v : Int) (hlo : -(2 ^ 15) ≤ v) (hhi : v < 2 ^ 15) :
    wrap16 v = v := by
  unfold wrap16
  omega

/-- A value already in the `int32_t` range is unchanged by the wrap. -/
theorem wrap32_eq_self (v : Int) (hlo : -(2 ^ 31) ≤ v) (hhi : v < 2 ^ 31) :
    wrap32 v = v := by
  unfold wrap32
  omega

/-- Wrapping an addend before an addition that is wrapped anyway changes
nothing. -/
theorem wrap32_add_right (a b : Int) : wrap32 (a + wrap32 b) = wrap32 (a + b) := by
  unfold wrap32
  omega

/-- Wrapping a subtrahend before a subtraction that is wrapped anyway
changes nothing. -/
theorem wrap32_sub_right (a b : Int) : wrap32 (a - wrap32 b) = wrap32 (a - b) := by
  unfold wrap32
  omega

/-- Bounds of the truncated Q.15 product for a tap whose value lies in
[-1, 1): the result fits `int16_t`. -/
theorem q15_trunc_in_range (t : fp_val) (hden : 0 < t.den)
    (hlo : -(t.den : Int) ≤ t.num) (hhi : t.num < (t.den : Int)) :
    -(2 ^ 15) ≤ q15_trunc t ∧ q15_trunc t < 2 ^ 15 := by
  unfold q15_trunc Q_15_SHIFT
  have hd : (0 : Int) < (t.den : Int) := by exact_mod_cast hden
  rcases le_or_lt 0 t.num with hn | hn
  · rw [Int.tdiv_eq_ediv (by positivity) (by positivity)]
    constructor
    · have := Int.ediv_nonneg (a := t.num * 2 ^ 15) (b := (t.den : Int))
        (by positivity) (by positivity)
      omega
    · rw [Int.ediv_lt_iff_lt_mul hd]
      have := mul_lt_mul_of_pos_right hhi (show (0 : Int) < 2 ^ 15 by norm_num)
      omega
  · have hrw : t.num * 2 ^ 15 = -(-t.num * 2 ^ 15) := by ring
    rw [hrw, Int.neg_tdiv,
      Int.tdiv_eq_ediv (by nlinarith) (by positivity)]
    constructor
    · have h1 : -t.num * 2 ^ 15 ≤ (t.den : Int) * 2 ^ 15 := by nlinarith
      have h2 := Int.ediv_le_ediv hd h1
      have h3 : ((t.den : Int) * 2 ^ 15) / (t.den : Int) = 2 ^ 15 :=
        Int.mul_ediv_cancel_left _ (by omega)
      omega
    · have := Int.ediv_nonneg (a := -t.num * 2 ^ 15) (b := (t.den : Int))
        (by nlinarith) (by positivity)
      omega

/-- C1: if the configured interpolation factor is zero, `_set_options` is
claimed to detect this as a configuration error before the streaming loop
and terminate fatally, as for a zero decimation factor.  The source does
not: both guards test the decimation factor, so `interpolate = 0` with
`decimate = 1` passes validation (`none`), while the spec-side validation
rejects it, and a zero decimation factor is indeed rejected. -/
theorem C1_zero_interpolation_passes_validation :
    check_factors 0 1 = none ∧
    check_factors_spec 0 1 = some config_error.bad_interpolation ∧
    check_factors 1 0 = some config_error.bad_decimation ∧
    check_factors_spec 1 0 = some config_error.bad_decimation := by
  decide

/-- C2, counterexample: the tap `1.0` has Q.15 value `2^15 = 32768`, which
is outside the `int16_t` range, yet the conversion step does not reject it:
it produces the silently wrapped in-range value `-32768`. -/
theorem C2_counterexample_tap_one_is_wrapped :
    q15_trunc { num := 1, den := 1 } = 32768 ∧
    i16_ok (q15_trunc { num := 1, den := 1 }) = false ∧
    q15_coeff { num := 1, den := 1 } = -32768 := by
  decide

/-- C2, amended: the conversion step never rejects a tap.  Every tap
converts to a value in the `int16_t` range that is congruent to the
truncated Q.15 product modulo `2^16` — out-of-range products are wrapped,
not rejected and not saturated: the tap `1.0` becomes `-32768`, not the
saturation value `32767`. -/
theorem C2_out_of_range_taps_wrap_silently :
    (∀ t : fp_val,
      -(2 ^ 15) ≤ q15_coeff t ∧ q15_coeff t < 2 ^ 15 ∧
      q15_coeff t % 2 ^ 16 = q15_trunc t % 2 ^ 16) ∧
    q15_coeff { num := 1, den := 1 } = -32768 ∧
    q15_coeff { num := 1, den := 1 } ≠ 32767 := by
  refine ⟨fun t => ?_, by decide, by decide⟩
  unfold q15_coeff wrap16
  refine ⟨by omega, by omega, by omega⟩

/-- C3, counterexample: the conversion is not `round(t * 2^15)`.  The tap
`3 / 65536` (a binary64 value, Q.15 product `1.5`) converts to `1` in the
source — the C cast truncates toward zero — while rounding gives `2`. -/
theorem C3_counterexample_cast_truncates_not_rounds :
    q15_coeff { num := 3, den := 65536 } = 1 ∧
    q15_round { num := 3, den := 65536 } = 2 ∧
    q15_coeff { num := 3, den := 65536 } ≠ q15_round { num := 3, den := 65536 } := by
  decide

/-- C3, amended: every tap is converted once at startup to the Q.15 product
`t * 2^15` truncated toward zero (a C cast, not rounding); for any tap in
[-1, 1) no wrapping occurs, and the examples hold: `0.5` converts to
`16384` and `-1.0` to `-32768`. -/
theorem C3_conversion_is_truncation (t : fp_val) (hden : 0 < t.den)
    (hlo : -(t.den : Int) ≤ t.num) (hhi : t.num < (t.den : Int)) :
    q15_coeff t = q15_trunc t ∧
    convert_coeffs [t] = [q15_coeff t] ∧
    q15_coeff { num := 1, den := 2 } = 16384 ∧
    q15_coeff { num := -1, den := 1 } = -32768 := by
  obtain ⟨h1, h2⟩ := q15_trunc_in_range t hden hlo hhi
  exact ⟨wrap16_eq_self _ h1 h2, rfl, by decide, by decide⟩

/-- C3, witness: the amended theorem applied to the tap `0.5`. -/
theorem C3_conversion_is_truncation_witness :
    q15_coeff { num := 1, den := 2 } = q15_trunc { num := 1, den := 2 } ∧
    convert_coeffs [{ num := 1, den := 2 }] = [q15_coeff { num := 1, den := 2 }] ∧
    q15_coeff { num := 1, den := 2 } = 16384 ∧
    q15_coeff { num := -1, den := 1 } = -32768 :=
  C3_conversion_is_truncation { num := 1, den := 2 } (by decide) (by decide) (by decide)

/-- C4, counterexample: the buffer returned by `_alloc_sample_buf` does not
carry the single-channel (scalar) fixed-point tag: its sample-encoding tag
is `COMPLEX_INT_16`, the complex-pair tag. -/
theorem C4_counterexample_buffer_tagged_complex :
    _alloc_sample_buf.sample_type = sample_type_t.COMPLEX_INT_16 ∧
    _alloc_sample_buf.sample_type ≠ sample_type_t.REAL_INT_16 := by
  decide

/-- C4, amended: the buffer returned by the allocator has a data region of
`NR_SAMPLES * sizeof(int16_t)` bytes — at least 1024 16-bit fixed-point
samples — zero valid samples and reference count zero, but its
sample-encoding tag is the complex 16-bit fixed-point tag
`COMPLEX_INT_16`, not the scalar one. -/
theorem C4_alloc_sample_buf_initial_state :
    _alloc_sample_buf.sample_buf_bytes = NR_SAMPLES * 2 ∧
    1024 * 2 ≤ _alloc_sample_buf.sample_buf_bytes ∧
    _alloc_sample_buf.nr_samples = 0 ∧
    _alloc_sample_buf.refcount = 0 ∧
    _alloc_sample_buf.sample_type = sample_type_t.COMPLEX_INT_16 := by
  decide

/-- C10: the DC blocker stores each output by narrowing the 32-bit
`y_prev = acc >> 15` to 16 bits with no saturation or range check: the
stored sample is always the wrap of `y_prev` modulo `2^16` into
[-2^15, 2^15), and a state whose accumulator holds `2^30` produces
`y_prev = 32768` but stores `-32768`. -/
theorem C10_output_store_wraps_modulo_2_16 :
    (∀ (b : dc_blocker) (s : Int), (dc_step b s).2 = wrap16 (dc_step b s).1.y_n_1) ∧
    (∀ v : Int, wrap16 v % 2 ^ 16 = v % 2 ^ 16 ∧
      -(2 ^ 15) ≤ wrap16 v ∧ wrap16 v < 2 ^ 15) ∧
    (dc_step { p := 3, x_n_1 := 0, y_n_1 := 0, f := 0, acc := 2 ^ 30 } 0).1.y_n_1 = 32768 ∧
    (dc_step { p := 3, x_n_1 := 0, y_n_1 := 0, f := 0, acc := 2 ^ 30 } 0).2 = -32768 := by
  refine ⟨fun b s => rfl, fun v => ?_, by decide, by decide⟩
  unfold wrap16
  refine ⟨by omega, by omega, by omega⟩

/-- A step of the DC blocker on a zero sample from a state whose
differentiator, feedback and accumulator registers are zero leaves the
state untouched and emits zero (the pole and the noise-shaping value are
arbitrary). -/
theorem dc_step_zero (b : dc_blocker) (hx : b.x_n_1 = 0) (hy : b.y_n_1 = 0)
    (ha : b.acc = 0) : dc_step b 0 = (b, 0) := by
  obtain ⟨p, x, y, f, a⟩ := b
  simp only at hx hy ha
  subst hx hy ha
  simp [dc_step, wrap32, wrap16]

/-- Silence is a no-op for the DC blocker, for blocks of every length. -/
theorem dc_blocker_silence_aux (n : Nat) (b : dc_blocker) (hx : b.x_n_1 = 0)
    (hy : b.y_n_1 = 0) (ha : b.acc = 0) :
    dc_blocker_apply b (List.replicate n 0) = (b, List.replicate n 0) := by
  induction n with
  | zero => simp [dc_blocker_apply]
  | succ n ih =>
    simp [List.replicate_succ, dc_blocker_apply, dc_step_zero b hx hy ha, ih]

/-- C6: for every block length n > 0, the DC blocker applied to an all-zero
block from a state with zeroed registers — in particular the
zero-initialized stream-start state — returns the all-zero block and
leaves the whole state (pole, previous input, previous output,
accumulator, noise-shaping value) unchanged. -/
theorem C6_silence_is_identity (n : Nat) (b : dc_blocker) (hn : 0 < n)
    (hx : b.x_n_1 = 0) (hy : b.y_n_1 = 0) (ha : b.acc = 0) :
    dc_blocker_apply b (List.replicate n 0) = (b, List.replicate n 0) :=
  dc_blocker_silence_aux n b hx hy ha

/-- C6, witness: a 3-sample silent block from the stream-start state. -/
theorem C6_silence_is_identity_witness :
    dc_blocker_apply dc_blocker_init (List.replicate 3 0) =
      (dc_blocker_init, List.replicate 3 0) :=
  C6_silence_is_identity 3 dc_blocker_init (by decide) rfl rfl rfl

/-- C7: in the FILL state (resampler not full), a successful read whose
byte count is odd — not a multiple of `sizeof(int16_t)` — halts the
iteration with the partial-sample invariant violation, after only the
buffer allocation and the read: no push and no write of that iteration's
output happens. -/
theorem C7_odd_read_halts_before_write (dcb : Bool) (e : IterEnv)
    (hf : e.full = false) (hr : 0 < e.read_ret) (hodd : e.read_ret % 2 = 1) :
    loop_iter dcb e =
      ([LoopAction.alloc_buf, LoopAction.read_fifo], some Outcome.bug_odd_read) ∧
    LoopAction.write_fifo ∉ (loop_iter dcb e).1 ∧
    LoopAction.push_buf ∉ (loop_iter dcb e).1 := by
  have h1 : ¬e.read_ret ≤ 0 := by omega
  have h2 : e.read_ret % 2 ≠ 0 := by omega
  refine ⟨?_, ?_, ?_⟩ <;> simp [loop_iter, hf, h1, h2]

/-- C7, witness: a 3-byte read in an otherwise healthy iteration. -/
theorem C7_odd_read_halts_before_write_witness :
    loop_iter false
        { full := false, read_ret := 3, new_samples := 4, write_ret := 0,
          keep_running := true } =
      ([LoopAction.alloc_buf, LoopAction.read_fifo], some Outcome.bug_odd_read) ∧
    LoopAction.write_fifo ∉
      (loop_iter false
        { full := false, read_ret := 3, new_samples := 4, write_ret := 0,
          keep_running := true }).1 ∧
    LoopAction.push_buf ∉
      (loop_iter false
        { full := false, read_ret := 3, new_samples := 4, write_ret := 0,
          keep_running := true }).1 :=
  C7_odd_read_halts_before_write false _ rfl (by decide) (by decide)

/-- C9: the keep-running signal is sampled only after a completed
iteration, so even when it is already false before the loop is entered,
the loop still performs one full FILL/DRAIN iteration — including the
blocking read and the write — and only then exits with success. -/
theorem C9_at_least_one_iteration (dcb : Bool) (e : IterEnv)
    (rest : List IterEnv) (hs : e.keep_running = false) (hf : e.full = false)
    (hr : 0 < e.read_ret) (hev : e.read_ret % 2 = 0) (hn : 0 < e.new_samples)
    (hw : 0 ≤ e.write_ret) :
    process_fir_run dcb (e :: rest) =
      ([LoopAction.alloc_buf, LoopAction.read_fifo, LoopAction.push_buf] ++
          drain_actions dcb,
        Outcome.success) ∧
    LoopAction.read_fifo ∈ (process_fir_run dcb (e :: rest)).1 ∧
    LoopAction.write_fifo ∈ (process_fir_run dcb (e :: rest)).1 := by
  have h1 : ¬e.read_ret ≤ 0 := by omega
  have h3 : ¬e.new_samples = 0 := by omega
  have h4 : ¬e.write_ret < 0 := by omega
  have h2 : ¬e.read_ret % 2 ≠ 0 := by omega
  refine ⟨?_, ?_, ?_⟩ <;>
    cases dcb <;>
      simp [process_fir_run, loop_iter, loop_drain, drain_actions, hf, hs, h1,
        h2, h3, h4]

/-- C9, witness: the stop signal is already false; the single iteration
still reads and writes, then the loop returns success. -/
theorem C9_at_least_one_iteration_witness :
    process_fir_run true
        [{ full := false, read_ret := 2048, new_samples := 1024,
           write_ret := 2048, keep_running := false }] =
      ([LoopAction.alloc_buf, LoopAction.read_fifo, LoopAction.push_buf] ++
          drain_actions true,
        Outcome.success) ∧
    LoopAction.read_fifo ∈
      (process_fir_run true
        [{ full := false, read_ret := 2048, new_samples := 1024,
           write_ret := 2048, keep_running := false }]).1 ∧
    LoopAction.write_fifo ∈
      (process_fir_run true
        [{ full := false, read_ret := 2048, new_samples := 1024,
           write_ret := 2048, keep_running := false }]).1 :=
  C9_at_least_one_iteration true _ [] rfl rfl (by decide) (by decide) (by decide)
    (by decide)

/-- An iteration that finds the resampler full and meets the resampler and
write contracts performs exactly the drain actions and exits normally. -/
theorem loop_iter_full (dcb : Bool) (e : IterEnv) (hf : e.full = true)
    (hn : 0 < e.new_samples) (hw : 0 ≤ e.write_ret) :
    loop_iter dcb e = (drain_actions dcb, none) := by
  have h3 : ¬e.new_samples = 0 := by omega
  have h4 : ¬e.write_ret < 0 := by omega
  simp [loop_iter, loop_drain, hf, h3, h4]

/-- Neither a buffer acquisition nor a read appears among the actions of
drain-only iterations. -/
theorem iters_actions_no_fill (dcb : Bool) (n : Nat) :
    LoopAction.read_fifo ∉ iters_actions dcb n ∧
    LoopAction.alloc_buf ∉ iters_actions dcb n := by
  induction n with
  | zero => simp [iters_actions]
  | succ n ih =>
    cases dcb <;>
      simp [iters_actions, drain_actions, ih.1, ih.2]

/-- A run in which every iteration finds the resampler full, meets the
resampler and write contracts, and keeps running until a final iteration
whose keep-running signal is false, performs exactly one drain per
iteration and then returns success. -/
theorem process_fir_run_all_full (dcb : Bool) :
    ∀ (es : List IterEnv) (e' : IterEnv),
      (∀ e ∈ es ++ [e'], e.full = true ∧ 0 < e.new_samples ∧ 0 ≤ e.write_ret) →
      (∀ e ∈ es, e.keep_running = true) → e'.keep_running = false →
      process_fir_run dcb (es ++ [e']) =
        (iters_actions dcb (es.length + 1), Outcome.success) := by
  intro es
  induction es with
  | nil =>
    intro e' hall hrun hstop
    obtain ⟨hf, hn, hw⟩ := hall e' (by simp)
    simp [process_fir_run, loop_iter_full dcb e' hf hn hw, hstop,
      iters_actions]
  | cons e es ih =>
    intro e' hall hrun hstop
    obtain ⟨hf, hn, hw⟩ := hall e (by simp)
    have hk := hrun e (by simp)
    have ih' := ih e' (fun x hx => hall x (by simp at hx ⊢; tauto))
      (fun x hx => hrun x (List.mem_cons_of_mem _ hx)) hstop
    simp [process_fir_run, loop_iter_full dcb e hf hn hw, hk, ih',
      iters_actions]

/-- C8: when the resampler reports full in every iteration (and the
resampler and write contracts hold), the streaming loop neither acquires a
buffer nor reads the input endpoint in any iteration — it performs only
the drain actions, one drain (with its output write) per iteration — and
when the keep-running signal goes false it exits at the iteration boundary
with success. -/
theorem C8_full_resampler_never_reads (dcb : Bool) (es : List IterEnv)
    (e' : IterEnv)
    (hall : ∀ e ∈ es ++ [e'], e.full = true ∧ 0 < e.new_samples ∧ 0 ≤ e.write_ret)
    (hrun : ∀ e ∈ es, e.keep_running = true) (hstop : e'.keep_running = false) :
    process_fir_run dcb (es ++ [e']) =
      (iters_actions dcb (es.length + 1), Outcome.success) ∧
    LoopAction.read_fifo ∉ (process_fir_run dcb (es ++ [e'])).1 ∧
    LoopAction.alloc_buf ∉ (process_fir_run dcb (es ++ [e'])).1 := by
  have key := process_fir_run_all_full dcb es e' hall hrun hstop
  refine ⟨key, ?_, ?_⟩ <;> rw [key]
  · exact (iters_actions_no_fill dcb (es.length + 1)).1
  · exact (iters_actions_no_fill dcb (es.length + 1)).2

/-- C8, witness: two permanently-full iterations, the second with the stop
signal; the run drains twice, never reads, and ends in success. -/
theorem C8_full_resampler_never_reads_witness :
    process_fir_run false
        ([{ full := true, read_ret := 0, new_samples := 512, write_ret := 1024,
            keep_running := true }] ++
          [{ full := true, read_ret := 0, new_samples := 512, write_ret := 1024,
             keep_running := false }]) =
      (iters_actions false (1 + 1), Outcome.success) ∧
    LoopAction.read_fifo ∉
      (process_fir_run false
        ([{ full := true, read_ret := 0, new_samples := 512, write_ret := 1024,
            keep_running := true }] ++
          [{ full := true, read_ret := 0, new_samples := 512, write_ret := 1024,
             keep_running := false }])).1 ∧
    LoopAction.alloc_buf ∉
      (process_fir_run false
        ([{ full := true, read_ret := 0, new_samples := 512, write_ret := 1024,
            keep_running := true }] ++
          [{ full := true, read_ret := 0, new_samples := 512, write_ret := 1024,
             keep_running := false }])).1 :=
  C8_full_resampler_never_reads false _ _ (by decide) (by decide) rfl

/-- The pole coefficient the program computes is 3 in Q.15. -/
theorem pole_q15_eq_three : pole_q15 = 3 := by decide

/-- One step of the compiled DC blocker agrees with one step of the spec
recurrence whenever the step stays inside the machine ranges, and it
leaves the noise-shaping value untouched. -/
theorem dc_step_eq_spec (b : dc_blocker) (st : dc_spec_state) (s : Int)
    (hrel : dc_rel b st) (h1 : i16_ok s = true)
    (h2 : i32_ok (st.acc - st.x_prev) = true)
    (h3 : i32_ok (st.pole * st.y_prev) = true)
    (h4 : i32_ok (st.acc - st.x_prev + s * 2 ^ 15 - st.pole * st.y_prev) = true)
    (h5 : i16_ok ((st.acc - st.x_prev + s * 2 ^ 15 - st.pole * st.y_prev) / 2 ^ 15) = true) :
    dc_rel (dc_step b s).1 (dc_spec_step st s).1 ∧
    (dc_step b s).1.f = b.f ∧
    (dc_step b s).2 = (dc_spec_step st s).2 := by
  obtain ⟨hp, hx, hy, ha⟩ := hrel
  simp only [i16_ok, i32_ok, Bool.and_eq_true, decide_eq_true_eq] at h1 h2 h3 h4 h5
  have e1 : wrap32 (b.acc - b.x_n_1) = st.acc - st.x_prev := by
    rw [hx, ha]
    exact wrap32_eq_self _ h2.1 h2.2
  have e2 : wrap32 (s * 2 ^ 15) = s * 2 ^ 15 := by
    apply wrap32_eq_self <;> omega
  have e3 : wrap32 (b.p * b.y_n_1) = st.pole * st.y_prev := by
    rw [hp, hy]
    exact wrap32_eq_self _ h3.1 h3.2
  have e4 : wrap32 (wrap32 (b.acc - b.x_n_1) +
        wrap32 (wrap32 (s * 2 ^ 15) - wrap32 (b.p * b.y_n_1))) =
      st.acc - st.x_prev + s * 2 ^ 15 - st.pole * st.y_prev := by
    rw [e1, e2, e3, wrap32_add_right]
    have hassoc : st.acc - st.x_prev + (s * 2 ^ 15 - st.pole * st.y_prev) =
        st.acc - st.x_prev + s * 2 ^ 15 - st.pole * st.y_prev := by ring
    rw [hassoc]
    exact wrap32_eq_self _ h4.1 h4.2
  simp only [dc_step, dc_spec_step, dc_rel, Q_15_SHIFT]
  refine ⟨⟨hp, e2, ?_, e4⟩, ?_, ?_⟩
  · rw [e4]
  · trivial
  · rw [e4]
    exact wrap16_eq_self _ h5.1 h5.2

/-- The compiled DC blocker agrees with the spec recurrence over a whole
block whenever the run stays inside the machine ranges; the noise-shaping
value is never modified. -/
theorem dc_apply_eq_spec :
    ∀ (samples : List Int) (b : dc_blocker) (st : dc_spec_state),
      dc_rel b st → dc_no_overflow st samples = true →
      dc_rel (dc_blocker_apply b samples).1 (dc_spec_apply st samples).1 ∧
      (dc_blocker_apply b samples).1.f = b.f ∧
      (dc_blocker_apply b samples).2 = (dc_spec_apply st samples).2 := by
  intro samples
  induction samples with
  | nil =>
    intro b st h _
    exact ⟨h, rfl, rfl⟩
  | cons s rest ih =>
    intro b st hrel hok
    simp only [dc_no_overflow, Bool.and_eq_true] at hok
    obtain ⟨⟨⟨⟨⟨h1, h2⟩, h3⟩, h4⟩, h5⟩, h6⟩ := hok
    have step := dc_step_eq_spec b st s hrel h1 h2 h3 h4 h5
    have tail := ih (dc_step b s).1 (dc_spec_step st s).1 step.1 h6
    refine ⟨tail.1, ?_, ?_⟩
    · show (dc_blocker_apply (dc_step b s).1 rest).1.f = b.f
      rw [tail.2.1, step.2.1]
    · show (dc_step b s).2 :: (dc_blocker_apply (dc_step b s).1 rest).2 =
        (dc_spec_step st s).2 :: (dc_spec_apply (dc_spec_step st s).1 rest).2
      rw [step.2.2, tail.2.2]

/-- The DC blocker replaces each sample of the block one for one. -/
theorem dc_blocker_apply_length :
    ∀ (samples : List Int) (b : dc_blocker),
      (dc_blocker_apply b samples).2.length = samples.length := by
  intro samples
  induction samples with
  | nil => intro b; rfl
  | cons s rest ih =>
    intro b
    simp [dc_blocker_apply, ih]

/-- C5: from the zero-initialized stream-start state, whose pole is the
Q.15 conversion of `(1 - 0.9999) * 2^15` (namely 3), applying the DC
blocker to a nonempty block that stays inside the machine ranges computes
for each sample, in order, exactly the claimed recurrence
(`acc := acc - x_prev`; `x_prev := sample << 15`;
`acc := acc + x_prev - pole * y_prev`; `y_prev := acc >> 15`;
`output := y_prev`), replacing the block's samples one for one, with the
final register state that recurrence prescribes. -/
theorem C5_dc_blocker_implements_recurrence (samples : List Int)
    (hne : samples ≠ [])
    (hok : dc_no_overflow (dc_spec_init pole_q15) samples = true) :
    dc_blocker_init.p = pole_q15 ∧ pole_q15 = 3 ∧
    (dc_blocker_apply dc_blocker_init samples).2 =
      (dc_spec_apply (dc_spec_init pole_q15) samples).2 ∧
    (dc_blocker_apply dc_blocker_init samples).2.length = samples.length ∧
    dc_rel (dc_blocker_apply dc_blocker_init samples).1
      (dc_spec_apply (dc_spec_init pole_q15) samples).1 := by
  have main := dc_apply_eq_spec samples dc_blocker_init (dc_spec_init pole_q15)
    ⟨rfl, rfl, rfl, rfl⟩ hok
  exact ⟨rfl, pole_q15_eq_three, main.2.2, dc_blocker_apply_length samples _,
    main.1⟩

/-- C5, witness: the block [100, -200, 300] stays in range; the code and
the recurrence agree on it. -/
theorem C5_dc_blocker_implements_recurrence_witness :
    dc_blocker_init.p = pole_q15 ∧ pole_q15 = 3 ∧
    (dc_blocker_apply dc_blocker_init [100, -200, 300]).2 =
      (dc_spec_apply (dc_spec_init pole_q15) [100, -200, 300]).2 ∧
    (dc_blocker_apply dc_blocker_init [100, -200, 300]).2.length =
      ([100, -200, 300] : List Int).length ∧
    dc_rel (dc_blocker_apply dc_blocker_init [100, -200, 300]).1
      (dc_spec_apply (dc_spec_init pole_q15) [100, -200, 300]).1 :=
  C5_dc_blocker_implements_recurrence [100, -200, 300] (by decide) (by decide)
